import Mathlib

/-!
Shallow embedding of `src/GCloudIoTMqtt.{h,cpp}` (Google Cloud IoT Arduino
MQTT connection manager).

Modelling conventions:
* Machine times (`millis()`) are natural numbers; within one call of
  `connect` or `loop` the clock is read as a single value `now` (the C code
  calls `millis()` several times within one call, at indistinguishably
  close instants).  The 32-bit wraparound of `unsigned long` is modelled
  explicitly by the dedicated definitions `armBackoffUntil32` /
  `backoffElapsed32` used for the wraparound claim.
* The external MQTT client, BearSSL objects and the certificate list are
  owned resources modelled as `Option` fields, mirroring the nullable
  pointers of the C++ class; calling an operation that dereferences a NULL
  `mqttClient` yields `none`.
* Externally observable calls (JWT regeneration, protocol connect /
  disconnect / subscribe / publish / loop, handler invocations) are
  recorded in an `Action` trace returned beside the new state.
* The outcome of the external `mqttClient->connect` call (its boolean
  result, the subsequent `connected()` status, the return code) and the
  two `random(EXP_BACKOFF_JITTER_MS)` draws are inputs, packaged in
  `ConnectEnv`.
-/

set_option linter.unusedVariables false

namespace GCIoT

/-! ## Constants (GCloudIoTMqtt.cpp lines 28-31) -/

def EXP_BACKOFF_FACTOR : Nat := 2

def EXP_BACKOFF_MIN_MS : Nat := 1000

def EXP_BACKOFF_MAX_MS : Nat := 32000

def EXP_BACKOFF_JITTER_MS : Nat := 500

/-- Modelled from the spec: broker host constant `CLOUD_IOT_CORE_MQTT_HOST_LTS`
from `CloudIoTCore.h`, which is not under `src/`; only its distinctness from
the non-LTS host matters to the claims. -/
def CLOUD_IOT_CORE_MQTT_HOST_LTS : String := "mqtt.2030.ltsapis.goog"

/-- Modelled from the spec: broker host constant `CLOUD_IOT_CORE_MQTT_HOST`
from `CloudIoTCore.h`, which is not under `src/`. -/
def CLOUD_IOT_CORE_MQTT_HOST : String := "mqtt.googleapis.com"

/-- Modelled from the spec: broker port constant from `CloudIoTCore.h`. -/
def CLOUD_IOT_CORE_MQTT_PORT : Nat := 8883

/-- CA certificate strings appended to the certificate list in `setup`
(GCloudIoTMqtt.cpp lines 34-35); their contents are irrelevant. -/
def gciot_primary_ca : String := "CLOUD_IOT_CORE_LTS_PRIMARY_CA"

def gciot_backup_ca : String := "CLOUD_IOT_CORE_LTS_BACKUP_CA"

/-! ## External protocol layer (lwmqtt) -/

/-- Connect return codes of the external MQTT client (`returnCode()`). -/
inductive Rc where
  | connectionAccepted
  | unacceptableProtocol
  | identifierRejected
  | serverUnavailable
  | badUsernameOrPassword
  | notAuthorized
  | unknownReturnCode
  deriving DecidableEq, Repr

/-- State of the external MQTT client object (`MQTTClientWithCookie`). -/
structure MqttState where
  host : String
  port : Nat
  connected : Bool
  returnCode : Rc
  deriving DecidableEq, Repr

/-- The three application callback slots. -/
inductive HandlerKind where
  | command
  | config
  | message
  deriving DecidableEq, Repr

/-- Externally observable calls issued by the connection manager. -/
inductive Action where
  | createJWT
  | protoConnect (clientId username password : String) (skipCleanSession : Bool)
  | protoDisconnect
  | subscribe (topic : String) (qos : Nat)
  | publish (topic payload : String)
  | armBackoff (deadline : Nat)
  | protoLoop
  | invokeHandler (h : HandlerKind) (topic payload : String)
  deriving DecidableEq, Repr

def Action.isSubscribe : Action → Bool
  | Action.subscribe _ _ => true
  | _ => false

def Action.isPublish : Action → Bool
  | Action.publish _ _ => true
  | _ => false

def Action.isCreateJWT : Action → Bool
  | Action.createJWT => true
  | _ => false

/-! ## Device identity (external `CloudIoTCoreDevice`, referenced not owned) -/

structure Device where
  clientId : String
  jwt : String
  deviceId : String
  expMillis : Nat
  eventsTopic : String
  stateTopic : String
  configTopic : String
  commandsTopic : String
  deriving DecidableEq, Repr

/-! ## Session state (private fields of `GCloudIoTMqtt`, header lines 76-88) -/

structure GCState where
  backoff_ms : Nat
  backoff_until_millis : Nat
  logConnect : Bool
  useLts : Bool
  autoReconnect : Bool
  mqttClient : Option MqttState
  certList : Option (List String)
  netClient : Option Unit
  commandCB : Option Unit
  configCB : Option Unit
  messageCB : Option Unit
  deriving DecidableEq, Repr

/-- Field initializers of the class (header lines 77-88): everything null,
backoff zeroed, `logConnect` and `useLts` true, `autoReconnect` false. -/
def initState : GCState where
  backoff_ms := 0
  backoff_until_millis := 0
  logConnect := true
  useLts := true
  autoReconnect := false
  mqttClient := none
  certList := none
  netClient := none
  commandCB := none
  configCB := none
  messageCB := none

/-- Environment of one `connect` call: the clock value, the outcome of the
external `mqttClient->connect` call, and the two jitter draws. -/
structure ConnectEnv where
  now : Nat
  connectResult : Bool
  connectedAfter : Bool
  returnCode : Rc
  jitter1 : Nat
  jitter2 : Nat
  deriving DecidableEq, Repr

/-! ## Operations -/

/-- `setup` (GCloudIoTMqtt.cpp lines 73-101): allocates the transport and
certificate list, then OVERWRITES `useLts` with `true` (line 90) before
branching on it to pick the broker host for `mqttClient->begin` (lines
92-96).  Allocation is assumed to succeed, as in the C code. -/
def setup (s : GCState) : GCState :=
  let s1 := { s with netClient := some (),
                     certList := some [gciot_primary_ca, gciot_backup_ca] }
  -- lines 88-90: this->backoff_until_millis = 0; this->backoff_ms = 0;
  -- this->useLts = true;
  let s2 := { s1 with backoff_until_millis := 0, backoff_ms := 0, useLts := true }
  -- lines 92-96: begin(host, port) on the freshly allocated client
  let host := if s2.useLts then CLOUD_IOT_CORE_MQTT_HOST_LTS else CLOUD_IOT_CORE_MQTT_HOST
  { s2 with mqttClient := some { host := host, port := CLOUD_IOT_CORE_MQTT_PORT,
                                 connected := false, returnCode := Rc.unknownReturnCode } }

/-- `cleanup` (lines 103-121): disconnect and delete the MQTT client if
present, delete the net client and certificate list if present, nulling
each pointer. -/
def cleanup (s : GCState) : GCState × List Action :=
  let (s1, acts) :=
    match s.mqttClient with
    | some _ => ({ s with mqttClient := none }, [Action.protoDisconnect])
    | none => (s, ([] : List Action))
  let s2 := match s1.netClient with
    | some _ => { s1 with netClient := none }
    | none => s1
  let s3 := match s2.certList with
    | some _ => { s2 with certList := none }
    | none => s2
  (s3, acts)

/-- Backoff recomputation after a failed connect (lines 165-170), with the
two `random(EXP_BACKOFF_JITTER_MS)` draws passed in explicitly. -/
def nextBackoffMs (b j1 j2 : Nat) : Nat :=
  if b < EXP_BACKOFF_MIN_MS then EXP_BACKOFF_MIN_MS + j1
  else if b < EXP_BACKOFF_MAX_MS then b * EXP_BACKOFF_FACTOR + j2
  else b

/-- `onConnect` (lines 241-246): when `logConnect` is set, publish a state
update and a telemetry event via `publishState` / `publishTelemetry`. -/
def onConnect (dev : Device) (s : GCState) : List Action :=
  if s.logConnect then
    [Action.publish dev.stateTopic "connected",
     Action.publish (dev.eventsTopic ++ "/events") (dev.deviceId ++ "-connected")]
  else []

/-- `connect` (lines 123-175).  The `auto_reconnect` parameter is accepted
but never read by the body; line 124 sets the flag to `true`
unconditionally.  Returns `none` when `mqttClient` is NULL (the C code
would dereference it). -/
def connect (dev : Device) (env : ConnectEnv) (auto_reconnect skipCS : Bool)
    (s : GCState) : Option (Bool × GCState × List Action) :=
  match s.mqttClient with
  | none => none
  | some m =>
    -- line 124: this->autoReconnect = true (auto_reconnect is ignored)
    let s1 := { s with autoReconnect := true }
    -- lines 127-131: regenerate JWT if (millis() + 60000) > getExpMillis()
    let preActs := if env.now + 60000 > dev.expMillis then [Action.createJWT] else []
    -- lines 133-138: mqttClient->connect(clientId, "unused", jwt, skip)
    let connAct := Action.protoConnect dev.clientId "unused" dev.jwt skipCS
    let m1 := { m with connected := env.connectedAfter, returnCode := env.returnCode }
    if env.connectResult && m1.connected then
      -- lines 144-153: reset backoff, subscribe config QoS 1 and commands
      -- QoS 0, run onConnect, return true
      let s2 := { s1 with backoff_ms := 0, mqttClient := some m1 }
      some (true, s2,
        preActs ++ [connAct]
          ++ [Action.subscribe dev.configTopic 1, Action.subscribe dev.commandsTopic 0]
          ++ onConnect dev s2)
    else
      -- lines 156-163: on bad-username-or-password / not-authorized,
      -- regenerate the JWT once
      let authActs :=
        match env.returnCode with
        | Rc.badUsernameOrPassword => [Action.createJWT]
        | Rc.notAuthorized => [Action.createJWT]
        | _ => ([] : List Action)
      -- lines 166-172: recompute backoff and arm backoff_until_millis
      let b := nextBackoffMs s1.backoff_ms env.jitter1 env.jitter2
      let s2 := { s1 with backoff_ms := b, backoff_until_millis := env.now + b,
                          mqttClient := some m1 }
      some (false, s2,
        preActs ++ [connAct] ++ authActs ++ [Action.armBackoff (env.now + b)])

/-- `disconnect` (lines 182-186): clears `autoReconnect` and disconnects
the protocol client. -/
def disconnect (s : GCState) : Option (Bool × GCState × List Action) :=
  match s.mqttClient with
  | none => none
  | some m =>
    some (true, { s with autoReconnect := false,
                         mqttClient := some { m with connected := false } },
          [Action.protoDisconnect])

/-- `loop` (lines 188-204), the periodic tick.  Branch 1 (lines 190-194):
while connected with the JWT within 60 s of expiry, disconnect the
protocol client and call `connect(autoReconnect, false)`.  Branch 2 (lines
195-201): while disconnected with `autoReconnect` set and
`millis() > backoff_until_millis`, call `connect(true)` provided the
network link is up.  Finally `mqttClient->loop()` runs unconditionally
(line 203). -/
def loop (dev : Device) (env : ConnectEnv) (networkConnected : Bool)
    (s : GCState) : Option (GCState × List Action) :=
  match s.mqttClient with
  | none => none
  | some m =>
    if m.connected && decide (env.now + 60000 > dev.expMillis) then
      let s1 := { s with mqttClient := some { m with connected := false } }
      match connect dev env s1.autoReconnect false s1 with
      | none => none
      | some (_, s2, acts) =>
        some (s2, Action.protoDisconnect :: acts ++ [Action.protoLoop])
    else if s.autoReconnect && !m.connected
        && decide (env.now > s.backoff_until_millis) then
      if networkConnected then
        match connect dev env true false s with
        | none => none
        | some (_, s2, acts) => some (s2, acts ++ [Action.protoLoop])
      else some (s, [Action.protoLoop])
    else some (s, [Action.protoLoop])

/-- Character-list core of Arduino `String::startsWith`: does the first
list begin with the second? -/
def startsWithChars : List Char → List Char → Bool
  | _, [] => true
  | [], _ :: _ => false
  | c :: cs, d :: ds => c == d && startsWithChars cs ds

/-- Arduino `String::startsWith(pat)`: the receiver begins with `pat`.
(Defined on the character data so that it evaluates by kernel reduction.) -/
def topicStartsWith (s pat : String) : Bool :=
  startsWithChars s.data pat.data

/-- `onMessageReceived` (lines 248-258): first-match-wins routing.  Note
the comparison direction: the REGISTERED topic is tested for starting with
the ARRIVED topic, exactly as in the source
(`device->getCommandsTopic().startsWith(topic)`). -/
def onMessageReceived (dev : Device) (s : GCState) (topic payload : String) :
    List Action :=
  if topicStartsWith dev.commandsTopic topic then
    match s.commandCB with
    | some _ => [Action.invokeHandler HandlerKind.command topic payload]
    | none => []
  else if topicStartsWith dev.configTopic topic then
    match s.configCB with
    | some _ => [Action.invokeHandler HandlerKind.config topic payload]
    | none => []
  else
    match s.messageCB with
    | some _ => [Action.invokeHandler HandlerKind.message topic payload]
    | none => []

/-- `setLogConnect` (lines 264-266). -/
def setLogConnect (enabled : Bool) (s : GCState) : GCState :=
  { s with logConnect := enabled }

/-- `setUseLts` (lines 268-270). -/
def setUseLts (enabled : Bool) (s : GCState) : GCState :=
  { s with useLts := enabled }

/-- `setCommandCallback` (lines 272-274); the function-pointer argument is
modelled by its presence. -/
def setCommandCallback (cb : Option Unit) (s : GCState) : GCState :=
  { s with commandCB := cb }

/-- `setConfigCallback` (lines 276-278). -/
def setConfigCallback (cb : Option Unit) (s : GCState) : GCState :=
  { s with configCB := cb }

/-- `setMessageCallback` (lines 280-282). -/
def setMessageCallback (cb : Option Unit) (s : GCState) : GCState :=
  { s with messageCB := cb }

/-! ## 32-bit wraparound model of the backoff deadline comparison

`backoff_until_millis` has C type `unsigned long` (32 bits on the target
MCUs) and `millis()` wraps modulo 2^32.  These definitions evaluate lines
172 and 195 in genuine 32-bit unsigned arithmetic. -/

def U32 : Nat := 4294967296

/-- Line 172, `backoff_until_millis = millis() + backoff_ms`, in 32-bit
unsigned arithmetic: `t` is the arming-time clock value, `d` the backoff
duration. -/
def armBackoffUntil32 (t d : Nat) : Nat := (t + d) % U32

/-- Line 195, `millis() > backoff_until_millis`, in 32-bit unsigned
arithmetic, for a window armed at clock value `t` with duration `d`. -/
def backoffElapsed32 (t d now : Nat) : Bool :=
  decide (now % U32 > armBackoffUntil32 t d)

/-- Elapsed time since arming, computed modulo the width of the unsigned
millisecond counter (the wraparound-safe quantity the spec reasons with). -/
def elapsedSinceArm32 (t now : Nat) : Nat :=
  (U32 + now % U32 - t % U32) % U32

/-! ## Derived notions used by the theorems -/

/-- The value of `backoff_ms` after `n` consecutive failed connect attempts
starting from the reset value 0, with both jitter draws fixed to 0
(the claim reads the backoff "ignoring jitter"). -/
def backoffSeq : Nat → Nat
  | 0 => 0
  | n + 1 => nextBackoffMs (backoffSeq n) 0 0

theorem nextBackoffMs_min_le (b j1 j2 : Nat) :
    EXP_BACKOFF_MIN_MS ≤ nextBackoffMs b j1 j2 := by
  unfold nextBackoffMs EXP_BACKOFF_MIN_MS EXP_BACKOFF_MAX_MS EXP_BACKOFF_FACTOR
  split
  · omega
  · split <;> omega

theorem backoffSeq_closed (n : Nat) :
    backoffSeq (n + 1) = min (EXP_BACKOFF_MIN_MS * 2 ^ n) EXP_BACKOFF_MAX_MS := by
  induction n with
  | zero => decide
  | succ k ih =>
    rw [backoffSeq, ih]
    rcases Nat.lt_or_ge k 5 with hk | hk
    · interval_cases k <;> decide
    · have h32 : (32 : Nat) ≤ 2 ^ k := by
        calc (32 : Nat) = 2 ^ 5 := by norm_num
        _ ≤ 2 ^ k := Nat.pow_le_pow_right (by norm_num) hk
      have hbig : EXP_BACKOFF_MAX_MS ≤ EXP_BACKOFF_MIN_MS * 2 ^ k := by
        unfold EXP_BACKOFF_MIN_MS EXP_BACKOFF_MAX_MS
        omega
      have hbig2 : EXP_BACKOFF_MAX_MS ≤ EXP_BACKOFF_MIN_MS * 2 ^ (k + 1) := by
        unfold EXP_BACKOFF_MIN_MS EXP_BACKOFF_MAX_MS at hbig ⊢
        rw [pow_succ]
        omega
      rw [Nat.min_eq_right hbig, Nat.min_eq_right hbig2]
      decide

end GCIoT

namespace GCIoT

/-- C1: ignoring jitter, the backoff after the first failure in a run of
consecutive failures is MIN; each later failure doubles it, clamped at
MAX; it never exceeds MAX; a failed `connect` recomputes `backoff_ms` by
exactly this step function; and a successful `connect` resets it to 0. -/
theorem connect_backoff_growth_and_reset :
    backoffSeq 1 = EXP_BACKOFF_MIN_MS
    ∧ (∀ n, 1 ≤ n →
        backoffSeq (n + 1) = min (backoffSeq n * EXP_BACKOFF_FACTOR) EXP_BACKOFF_MAX_MS)
    ∧ (∀ n, backoffSeq n ≤ EXP_BACKOFF_MAX_MS)
    ∧ (∀ dev env ar sk s s2 acts, connect dev env ar sk s = some (false, s2, acts) →
        s2.backoff_ms = nextBackoffMs s.backoff_ms env.jitter1 env.jitter2)
    ∧ (∀ dev env ar sk s s2 acts, connect dev env ar sk s = some (true, s2, acts) →
        s2.backoff_ms = 0) := by
  refine ⟨by decide, ?_, ?_, ?_, ?_⟩
  · rintro n hn
    obtain ⟨m, rfl⟩ : ∃ m, n = m + 1 := ⟨n - 1, by omega⟩
    rw [backoffSeq_closed m, backoffSeq_closed (m + 1)]
    unfold EXP_BACKOFF_MIN_MS EXP_BACKOFF_MAX_MS EXP_BACKOFF_FACTOR
    rw [pow_succ]
    rcases Nat.le_total (1000 * 2 ^ m) 32000 with h | h
    · rw [Nat.min_eq_left h]
      omega
    · rw [Nat.min_eq_right h, Nat.min_eq_right (by omega), Nat.min_eq_right (by omega)]
  · intro n
    cases n with
    | zero => decide
    | succ k =>
      rw [backoffSeq_closed k]
      exact Nat.min_le_right _ _
  · intro dev env ar sk s s2 acts h
    cases hm : s.mqttClient with
    | none => simp [connect, hm] at h
    | some m =>
      simp only [connect, hm] at h
      split at h
      · simp only [Option.some.injEq, Prod.mk.injEq] at h
        exact absurd h.1 (by simp)
      · simp only [Option.some.injEq, Prod.mk.injEq] at h
        rw [← h.2.1]
  · intro dev env ar sk s s2 acts h
    cases hm : s.mqttClient with
    | none => simp [connect, hm] at h
    | some m =>
      simp only [connect, hm] at h
      split at h
      · simp only [Option.some.injEq, Prod.mk.injEq] at h
        rw [← h.2.1]
      · simp only [Option.some.injEq, Prod.mk.injEq] at h
        exact absurd h.1 (by simp)

/-- Witness for C1 at concrete inputs: the doubling step at n = 3 and the
reset on a concrete successful connect. -/
theorem connect_backoff_growth_and_reset_witness :
    backoffSeq 4 = min (backoffSeq 3 * EXP_BACKOFF_FACTOR) EXP_BACKOFF_MAX_MS :=
  connect_backoff_growth_and_reset.2.1 3 (by decide)

/-- Every `connect` call that does not hit a NULL client emits the
protocol-level connect request in its action trace. -/
theorem connect_emits_protoConnect (dev : Device) (env : ConnectEnv)
    (ar sk : Bool) (s : GCState) (r : Bool) (s2 : GCState) (acts : List Action)
    (h : connect dev env ar sk s = some (r, s2, acts)) :
    Action.protoConnect dev.clientId "unused" dev.jwt sk ∈ acts := by
  cases hm : s.mqttClient with
  | none => simp [connect, hm] at h
  | some m =>
    simp only [connect, hm] at h
    split at h <;>
    · simp only [Option.some.injEq, Prod.mk.injEq] at h
      rw [← h.2.2]
      simp

/-- C2: on a disconnected session, the tick attempts a protocol connect
only when the backoff deadline has been reached, `autoReconnect` is set
and the network link is up; it never attempts one while
`now < backoff_until_millis`; and when `autoReconnect` is set, the
deadline is strictly passed and the link is up, it does attempt one. -/
theorem loop_no_premature_reconnect (dev : Device) (env : ConnectEnv)
    (network : Bool) (s : GCState) (m : MqttState) (s2 : GCState)
    (acts : List Action)
    (hm : s.mqttClient = some m) (hdisc : m.connected = false)
    (hloop : loop dev env network s = some (s2, acts)) :
    ((∃ c u p b, Action.protoConnect c u p b ∈ acts) →
        env.now ≥ s.backoff_until_millis ∧ s.autoReconnect = true ∧ network = true)
    ∧ (env.now < s.backoff_until_millis →
        ∀ c u p b, Action.protoConnect c u p b ∉ acts)
    ∧ (s.autoReconnect = true → env.now > s.backoff_until_millis →
        network = true →
        Action.protoConnect dev.clientId "unused" dev.jwt false ∈ acts) := by
  simp only [loop, hm, hdisc, Bool.false_and, Bool.and_false, Bool.false_eq_true,
    if_false, Bool.not_false, Bool.and_true] at hloop
  split at hloop
  case isTrue hcond =>
    rw [Bool.and_eq_true, decide_eq_true_eq] at hcond
    obtain ⟨har, hgt⟩ := hcond
    split at hloop
    case isTrue hnet =>
      cases hc : connect dev env true false s with
      | none => rw [hc] at hloop; exact absurd hloop (by simp)
      | some res =>
        obtain ⟨r, s3, cacts⟩ := res
        rw [hc] at hloop
        simp only [Option.some.injEq, Prod.mk.injEq] at hloop
        obtain ⟨-, ha⟩ := hloop
        refine ⟨fun _ => ⟨Nat.le_of_lt hgt, har, hnet⟩,
                fun hlt => absurd hgt (by omega), fun _ _ _ => ?_⟩
        rw [← ha]
        exact List.mem_append_left _ (connect_emits_protoConnect dev env true false s r s3 cacts hc)
    case isFalse hnet =>
      simp only [Option.some.injEq, Prod.mk.injEq] at hloop
      obtain ⟨-, ha⟩ := hloop
      refine ⟨?_, ?_, fun _ _ h3 => absurd h3 hnet⟩
      · rintro ⟨c, u, p, b, hmem⟩
        rw [← ha] at hmem
        simp at hmem
      · intro _ c u p b hmem
        rw [← ha] at hmem
        simp at hmem
  case isFalse hcond =>
    simp only [Option.some.injEq, Prod.mk.injEq] at hloop
    obtain ⟨-, ha⟩ := hloop
    refine ⟨?_, ?_, fun har hgt _ => ?_⟩
    · rintro ⟨c, u, p, b, hmem⟩
      rw [← ha] at hmem
      simp at hmem
    · intro _ c u p b hmem
      rw [← ha] at hmem
      simp at hmem
    · exact absurd (by rw [har, decide_eq_true hgt]; rfl : (s.autoReconnect
        && decide (env.now > s.backoff_until_millis)) = true) hcond

/-- Concrete device identity used by the witnesses and counterexamples. -/
def devW : Device where
  clientId := "projects/p/locations/l/registries/r/devices/d1"
  jwt := "jwt-token"
  deviceId := "d1"
  expMillis := 1000000000
  eventsTopic := "/devices/d1/events"
  stateTopic := "/devices/d1/state"
  configTopic := "/devices/d1/config"
  commandsTopic := "/devices/d1/commands"

/-- Concrete environment of a failing connect attempt. -/
def envFailW : ConnectEnv where
  now := 100
  connectResult := false
  connectedAfter := false
  returnCode := Rc.serverUnavailable
  jitter1 := 0
  jitter2 := 0

/-- Concrete external client state, disconnected. -/
def mW : MqttState where
  host := "mqtt.2030.ltsapis.goog"
  port := 8883
  connected := false
  returnCode := Rc.unknownReturnCode

/-- Concrete session: auto-reconnect on, disconnected, backoff armed until
5000 ms. -/
def sW2 : GCState :=
  { initState with autoReconnect := true, backoff_until_millis := 5000,
                   mqttClient := some mW }

/-- Witness for C2: a concrete disconnected session inside its backoff
window (now = 100 < 5000) performs no connect attempt. -/
theorem loop_no_premature_reconnect_witness :
    Action.protoConnect "cid" "unused" "jwt" false ∉ [Action.protoLoop] :=
  (loop_no_premature_reconnect devW envFailW true sW2 mW sW2
    [Action.protoLoop] rfl rfl rfl).2.1 (by decide)
    "cid" "unused" "jwt" false

/-- Device whose JWT expires exactly 60000 ms after clock value 0, hitting
the boundary `now + 60 s = expiry` of claim C3. -/
def devC3 : Device :=
  { devW with expMillis := 60000 }

/-- Environment for the C3 counterexample: clock reads 0. -/
def envC3 : ConnectEnv where
  now := 0
  connectResult := true
  connectedAfter := true
  returnCode := Rc.connectionAccepted
  jitter1 := 0
  jitter2 := 0

/-- Connected external client state. -/
def mConn : MqttState :=
  { mW with connected := true }

/-- Connected session used by the C3 counterexample. -/
def sC3 : GCState :=
  { initState with autoReconnect := true, mqttClient := some mConn }

/-- C3 counterexample: at the boundary `now + 60 s = credentialExpiry`
(now = 0, expiry = 60000) on a connected session, `loop` neither
disconnects nor re-initiates connect — it only pumps the protocol client —
because line 190 tests the STRICT inequality `(millis() + 60000) >
getExpMillis()`, while the claim demands a refresh already at `>=`. -/
theorem loop_refresh_boundary_counterexample :
    mConn.connected = true
    ∧ sC3.mqttClient = some mConn
    ∧ envC3.now + 60000 ≥ devC3.expMillis
    ∧ loop devC3 envC3 true sC3 = some (sC3, [Action.protoLoop]) :=
  ⟨rfl, rfl, by decide, rfl⟩

/-- Every `connect` call on a non-NULL client first performs the optional
expiry-driven token regeneration, then the protocol-level connect request,
and only then any further action. -/
theorem connect_acts_shape {dev : Device} {env : ConnectEnv} {ar sk : Bool}
    {s : GCState} {r : Bool} {s2 : GCState} {acts : List Action}
    (h : connect dev env ar sk s = some (r, s2, acts)) :
    ∃ rest, acts =
      (if env.now + 60000 > dev.expMillis then [Action.createJWT] else [])
        ++ Action.protoConnect dev.clientId "unused" dev.jwt sk :: rest := by
  cases hm : s.mqttClient with
  | none => simp [connect, hm] at h
  | some m =>
    simp only [connect, hm] at h
    split at h
    · simp only [Option.some.injEq, Prod.mk.injEq] at h
      refine ⟨[Action.subscribe dev.configTopic 1, Action.subscribe dev.commandsTopic 0]
        ++ onConnect dev s2, ?_⟩
      rw [← h.2.2, ← h.2.1]
      simp
    · simp only [Option.some.injEq, Prod.mk.injEq] at h
      refine ⟨(match env.returnCode with
        | Rc.badUsernameOrPassword => [Action.createJWT]
        | Rc.notAuthorized => [Action.createJWT]
        | _ => ([] : List Action))
        ++ [Action.armBackoff s2.backoff_until_millis], ?_⟩
      rw [← h.2.2, ← h.2.1]
      simp

/-- C3 amended: for every connected session whose credential expiry
satisfies the strict inequality `now + 60 s > expiry`, the very next
`loop` call first disconnects the protocol client, then regenerates the
token, then re-initiates the protocol connect — all before any publish
and regardless of the backoff deadline (the session `s`, hence
`backoff_until_millis`, is arbitrary). -/
theorem loop_refresh_before_expiry (dev : Device) (env : ConnectEnv)
    (network : Bool) (s : GCState) (m : MqttState) (s2 : GCState)
    (acts : List Action)
    (hm : s.mqttClient = some m) (hconn : m.connected = true)
    (hexp : env.now + 60000 > dev.expMillis)
    (hloop : loop dev env network s = some (s2, acts)) :
    acts.take 3 = [Action.protoDisconnect, Action.createJWT,
                   Action.protoConnect dev.clientId "unused" dev.jwt false] := by
  have hd : decide (env.now + 60000 > dev.expMillis) = true := decide_eq_true hexp
  simp only [loop, hm, hconn, hd, Bool.true_and, if_true] at hloop
  split at hloop
  · exact absurd hloop (by simp)
  · rename_i r s3 cacts heq
    obtain ⟨rest, hshape⟩ := connect_acts_shape heq
    rw [if_pos hexp] at hshape
    simp only [Option.some.injEq, Prod.mk.injEq] at hloop
    rw [← hloop.2, hshape]
    simp

/-- Witness for C3's amended theorem: a concrete connected session 70 s
before expiry, i.e. inside the 60 s look-ahead margin. -/
theorem loop_refresh_before_expiry_witness :
    ([Action.protoDisconnect, Action.createJWT,
      Action.protoConnect devC3.clientId "unused" devC3.jwt false,
      Action.subscribe devC3.configTopic 1, Action.subscribe devC3.commandsTopic 0,
      Action.publish devC3.stateTopic "connected",
      Action.publish (devC3.eventsTopic ++ "/events") (devC3.deviceId ++ "-connected"),
      Action.protoLoop] : List Action).take 3
      = [Action.protoDisconnect, Action.createJWT,
         Action.protoConnect devC3.clientId "unused" devC3.jwt false] :=
  loop_refresh_before_expiry devC3
    { envC3 with now := 10000 } true sC3 mConn _ _ rfl rfl (by decide) rfl

/-- C4: inbound routing.  First match wins in the order commands, config,
generic; the match test is "registered topic starts with arrived topic";
a passed test with no registered handler drops the message without
falling through; at most one handler is ever invoked. -/
theorem onMessageReceived_routing (dev : Device) (s : GCState)
    (topic payload : String) :
    (onMessageReceived dev s topic payload).length ≤ 1
    ∧ (topicStartsWith dev.commandsTopic topic = true → s.commandCB.isSome = true →
        onMessageReceived dev s topic payload
          = [Action.invokeHandler HandlerKind.command topic payload])
    ∧ (topicStartsWith dev.commandsTopic topic = true → s.commandCB = none →
        onMessageReceived dev s topic payload = [])
    ∧ (topicStartsWith dev.commandsTopic topic = false →
        topicStartsWith dev.configTopic topic = true → s.configCB.isSome = true →
        onMessageReceived dev s topic payload
          = [Action.invokeHandler HandlerKind.config topic payload])
    ∧ (topicStartsWith dev.commandsTopic topic = false →
        topicStartsWith dev.configTopic topic = true → s.configCB = none →
        onMessageReceived dev s topic payload = [])
    ∧ (topicStartsWith dev.commandsTopic topic = false →
        topicStartsWith dev.configTopic topic = false → s.messageCB.isSome = true →
        onMessageReceived dev s topic payload
          = [Action.invokeHandler HandlerKind.message topic payload])
    ∧ (topicStartsWith dev.commandsTopic topic = false →
        topicStartsWith dev.configTopic topic = false → s.messageCB = none →
        onMessageReceived dev s topic payload = []) := by
  unfold onMessageReceived
  rcases hcmd : topicStartsWith dev.commandsTopic topic
    <;> rcases hcfg : topicStartsWith dev.configTopic topic
    <;> cases hc1 : s.commandCB
    <;> cases hc2 : s.configCB
    <;> cases hc3 : s.messageCB
    <;> simp [hcmd, hcfg]

/-- Witness for C4: the registered commands topic starts with the arrived
topic (truncated form), command handler registered, so the command handler
alone is invoked even though a generic handler is also registered. -/
theorem onMessageReceived_routing_witness :
    onMessageReceived devW
      { initState with commandCB := some (), messageCB := some () }
      "/devices/d1/comm" "payload"
      = [Action.invokeHandler HandlerKind.command "/devices/d1/comm" "payload"] :=
  (onMessageReceived_routing devW
    { initState with commandCB := some (), messageCB := some () }
    "/devices/d1/comm" "payload").2.1 (by decide) rfl

/-- C5: a connect attempt failing with bad-username-or-password or
not-authorized emits exactly one `createJWT` after the protocol connect
request (in response to the return code), strictly before the backoff
deadline is armed; the deadline is armed at `now + backoff_ms` with
`backoff_ms` at least MIN, so the subsequent wait is not bypassed. -/
theorem connect_auth_failure_regen (dev : Device) (env : ConnectEnv)
    (ar sk : Bool) (s : GCState) (s2 : GCState) (acts : List Action)
    (hrc : env.returnCode = Rc.badUsernameOrPassword
         ∨ env.returnCode = Rc.notAuthorized)
    (hconn : connect dev env ar sk s = some (false, s2, acts)) :
    acts = (if env.now + 60000 > dev.expMillis then [Action.createJWT] else [])
        ++ [Action.protoConnect dev.clientId "unused" dev.jwt sk,
            Action.createJWT,
            Action.armBackoff (env.now + s2.backoff_ms)]
    ∧ s2.backoff_until_millis = env.now + s2.backoff_ms
    ∧ EXP_BACKOFF_MIN_MS ≤ s2.backoff_ms := by
  cases hm : s.mqttClient with
  | none => simp [connect, hm] at hconn
  | some m =>
    simp only [connect, hm] at hconn
    split at hconn
    · simp only [Option.some.injEq, Prod.mk.injEq] at hconn
      exact absurd hconn.1 (by simp)
    · simp only [Option.some.injEq, Prod.mk.injEq] at hconn
      obtain ⟨-, hs, ha⟩ := hconn
      have hb : s2.backoff_ms = nextBackoffMs s.backoff_ms env.jitter1 env.jitter2 := by
        rw [← hs]
      have hu : s2.backoff_until_millis = env.now + s2.backoff_ms := by
        rw [← hs]
      refine ⟨?_, hu, hb ▸ nextBackoffMs_min_le _ _ _⟩
      rw [← ha, hb]
      rcases hrc with h | h <;> rw [h] <;> simp

/-- Witness for C5: a concrete not-authorized failure. -/
theorem connect_auth_failure_regen_witness :
    ([Action.protoConnect devW.clientId "unused" devW.jwt false,
      Action.createJWT, Action.armBackoff 1100] : List Action)
      = (if (100 : Nat) + 60000 > devW.expMillis then [Action.createJWT] else [])
          ++ [Action.protoConnect devW.clientId "unused" devW.jwt false,
              Action.createJWT, Action.armBackoff (100 + 1000)] :=
  (connect_auth_failure_regen devW
    { envFailW with returnCode := Rc.notAuthorized } true false sW2 _ _
    (Or.inr rfl) rfl).1

/-- C6: a successful connect (protocol connect returned true and the
client reports connected) issues exactly two subscriptions — config at
QoS 1 then commands at QoS 0 — and exactly the on-connect publishes:
one state publish and one telemetry publish when `logConnect` is true,
none when it is false. -/
theorem connect_success_side_effects (dev : Device) (env : ConnectEnv)
    (ar sk : Bool) (s : GCState) (s2 : GCState) (acts : List Action)
    (hres : env.connectResult = true) (hca : env.connectedAfter = true)
    (hconn : connect dev env ar sk s = some (true, s2, acts)) :
    acts.filter Action.isSubscribe
      = [Action.subscribe dev.configTopic 1, Action.subscribe dev.commandsTopic 0]
    ∧ acts.filter Action.isPublish
      = (if s.logConnect then
          [Action.publish dev.stateTopic "connected",
           Action.publish (dev.eventsTopic ++ "/events") (dev.deviceId ++ "-connected")]
         else []) := by
  cases hm : s.mqttClient with
  | none => simp [connect, hm] at hconn
  | some m =>
    simp only [connect, hm] at hconn
    split at hconn
    · simp only [Option.some.injEq, Prod.mk.injEq] at hconn
      obtain ⟨-, hs, ha⟩ := hconn
      rw [← ha]
      by_cases hexp : env.now + 60000 > dev.expMillis
        <;> by_cases hlog : s.logConnect = true
        <;> simp [hexp, hlog, onConnect, Action.isSubscribe, Action.isPublish]
    · simp only [Option.some.injEq, Prod.mk.injEq] at hconn
      exact absurd hconn.1 (by simp)

/-- Environment of a successful connect attempt at clock 100. -/
def envOkW : ConnectEnv :=
  { envFailW with connectResult := true, connectedAfter := true,
                  returnCode := Rc.connectionAccepted }

/-- Witness for C6: a concrete successful connect with `logConnect` true. -/
theorem connect_success_side_effects_witness :
    ([Action.protoConnect devW.clientId "unused" devW.jwt false,
      Action.subscribe devW.configTopic 1, Action.subscribe devW.commandsTopic 0,
      Action.publish devW.stateTopic "connected",
      Action.publish (devW.eventsTopic ++ "/events") (devW.deviceId ++ "-connected")]
        : List Action).filter Action.isSubscribe
      = [Action.subscribe devW.configTopic 1, Action.subscribe devW.commandsTopic 0] :=
  (connect_success_side_effects devW envOkW true false sW2 _ _
    rfl rfl rfl).1

/-- Every `connect` call that returns leaves `autoReconnect` set
(line 124 assigns `true` unconditionally). -/
theorem connect_sets_autoReconnect {dev : Device} {env : ConnectEnv}
    {ar sk : Bool} {s : GCState} {r : Bool} {s2 : GCState} {acts : List Action}
    (h : connect dev env ar sk s = some (r, s2, acts)) :
    s2.autoReconnect = true := by
  cases hm : s.mqttClient with
  | none => simp [connect, hm] at h
  | some m =>
    simp only [connect, hm] at h
    split at h <;>
    · simp only [Option.some.injEq, Prod.mk.injEq] at h
      rw [← h.2.1]

/-- C7: `autoReconnect` is set to true by every `connect` call whatever
its `auto_reconnect` argument, cleared by every `disconnect` call, and
left unchanged by `loop` (on reachable states, where connected implies
auto-reconnect), by `setup`, `cleanup` and every setter. -/
theorem autoReconnect_flag_discipline :
    (∀ dev env ar sk s r s2 acts, connect dev env ar sk s = some (r, s2, acts) →
        s2.autoReconnect = true)
    ∧ (∀ s r s2 acts, disconnect s = some (r, s2, acts) → s2.autoReconnect = false)
    ∧ (∀ dev env network s m s2 acts, s.mqttClient = some m →
        (m.connected = true → s.autoReconnect = true) →
        loop dev env network s = some (s2, acts) →
        s2.autoReconnect = s.autoReconnect)
    ∧ (∀ s, (setup s).autoReconnect = s.autoReconnect)
    ∧ (∀ s, (cleanup s).1.autoReconnect = s.autoReconnect)
    ∧ (∀ b s, (setUseLts b s).autoReconnect = s.autoReconnect)
    ∧ (∀ b s, (setLogConnect b s).autoReconnect = s.autoReconnect)
    ∧ (∀ cb s, (setCommandCallback cb s).autoReconnect = s.autoReconnect)
    ∧ (∀ cb s, (setConfigCallback cb s).autoReconnect = s.autoReconnect)
    ∧ (∀ cb s, (setMessageCallback cb s).autoReconnect = s.autoReconnect) := by
  refine ⟨?_, ?_, ?_, ?_, ?_, fun b s => rfl, fun b s => rfl,
          fun cb s => rfl, fun cb s => rfl, fun cb s => rfl⟩
  · intro dev env ar sk s r s2 acts h
    exact connect_sets_autoReconnect h
  · intro s r s2 acts h
    cases hm : s.mqttClient with
    | none => simp [disconnect, hm] at h
    | some m =>
      simp only [disconnect, hm, Option.some.injEq, Prod.mk.injEq] at h
      rw [← h.2.1]
  · intro dev env network s m s2 acts hm hinv hloop
    simp only [loop, hm] at hloop
    split at hloop
    case isTrue hc =>
      simp only [Bool.and_eq_true] at hc
      have har : s.autoReconnect = true := hinv hc.1
      split at hloop
      · simp at hloop
      · rename_i r s3 cacts heq
        simp only [Option.some.injEq, Prod.mk.injEq] at hloop
        rw [← hloop.1, connect_sets_autoReconnect heq, har]
    case isFalse =>
      split at hloop
      case isTrue hc2 =>
        simp only [Bool.and_eq_true] at hc2
        have har : s.autoReconnect = true := hc2.1.1
        split at hloop
        case isTrue hnet =>
          split at hloop
          · simp at hloop
          · rename_i r s3 cacts heq
            simp only [Option.some.injEq, Prod.mk.injEq] at hloop
            rw [← hloop.1, connect_sets_autoReconnect heq, har]
        case isFalse hnet =>
          simp only [Option.some.injEq, Prod.mk.injEq] at hloop
          rw [← hloop.1]
      case isFalse =>
        simp only [Option.some.injEq, Prod.mk.injEq] at hloop
        rw [← hloop.1]
  · intro s
    rfl
  · intro s
    unfold cleanup
    cases hm : s.mqttClient <;> cases hn : s.netClient <;> cases hcl : s.certList
      <;> simp [hm, hn, hcl]

/-- Witness for C7: a concrete `disconnect` clears the flag. -/
theorem autoReconnect_flag_discipline_witness :
    ({ sW2 with autoReconnect := false, mqttClient := some { mW with connected := false } } : GCState).autoReconnect = false :=
  autoReconnect_flag_discipline.2.1 sW2 true _ [Action.protoDisconnect] rfl

/-- A state whose three owned resources are already released is left
untouched by `cleanup`, with no observable action. -/
theorem cleanup_of_released (t : GCState) (h1 : t.mqttClient = none)
    (h2 : t.netClient = none) (h3 : t.certList = none) :
    cleanup t = (t, []) := by
  unfold cleanup
  rw [h1]
  simp only []
  rw [h2, h3]

/-- C8: `cleanup` always leaves the protocol client, the transport client
and the certificate list released; running it again right after is a
perfect no-op (same state, no actions), and running it on a session that
was never set up performs no action at all. -/
theorem cleanup_idempotent :
    (∀ s, (cleanup s).1.mqttClient = none ∧ (cleanup s).1.netClient = none
        ∧ (cleanup s).1.certList = none)
    ∧ (∀ s, cleanup (cleanup s).1 = ((cleanup s).1, []))
    ∧ cleanup initState = (initState, []) := by
  have hres : ∀ s : GCState, (cleanup s).1.mqttClient = none
      ∧ (cleanup s).1.netClient = none ∧ (cleanup s).1.certList = none := by
    intro s
    unfold cleanup
    cases hm : s.mqttClient <;> cases hn : s.netClient <;> cases hcl : s.certList
      <;> simp [hm, hn, hcl]
  exact ⟨hres,
    fun s => cleanup_of_released _ (hres s).1 (hres s).2.1 (hres s).2.2,
    rfl⟩

/-- C9 (code defect): `setUseLts(false)` before `setup` has no effect on
the broker host, because `setup` line 90 overwrites `useLts` with `true`
before branching on it at line 92 — the non-LTS branch is dead code.  The
protocol client is begun against the LTS host, contradicting the claim
that `setup` would then target the non-LTS host. -/
theorem setup_ignores_useLts_false :
    (setUseLts false initState).useLts = false
    ∧ (setup (setUseLts false initState)).mqttClient
        = some { host := CLOUD_IOT_CORE_MQTT_HOST_LTS, port := CLOUD_IOT_CORE_MQTT_PORT,
                 connected := false, returnCode := Rc.unknownReturnCode }
    ∧ CLOUD_IOT_CORE_MQTT_HOST_LTS ≠ CLOUD_IOT_CORE_MQTT_HOST :=
  ⟨rfl, rfl, by decide⟩

/-- C10 counterexample: arm the backoff at clock value 2^32 - 500 with a
1000 ms window, so `t + d` overflows the 32-bit counter; one millisecond
later (elapsed = 1 ms, far below d = 1000) the comparison of line 195
already deems the window elapsed.  So the tick's decision is NOT
"elapsed-since-arming mod 2^32 exceeds d". -/
theorem backoffElapsed32_not_wraparound_safe :
    backoffElapsed32 (U32 - 500) 1000 (U32 - 499) = true
    ∧ elapsedSinceArm32 (U32 - 500) (U32 - 499) = 1
    ∧ ¬ ((1 : Nat) > 1000) :=
  ⟨by decide, by decide, by decide⟩

/-- C10 amended: the tick's backoff-elapsed decision is the raw unsigned
comparison `now mod 2^32 > (t + d) mod 2^32`.  It agrees with the
wraparound-safe formulation "elapsed-since-arming mod 2^32 exceeds d"
whenever `t + d` does not overflow the counter and `now` lies in
[t, 2^32); when `t + d` overflows, the two can disagree (see the
counterexample), i.e. the code is not wraparound-safe. -/
theorem backoffElapsed32_no_overflow (t d now : Nat)
    (hbound : t + d < U32) (hle : t ≤ now) (hnow : now < U32) :
    backoffElapsed32 t d now = true ↔ elapsedSinceArm32 t now > d := by
  unfold backoffElapsed32 armBackoffUntil32 elapsedSinceArm32
  have h1 : now % U32 = now := Nat.mod_eq_of_lt hnow
  have h3 : t % U32 = t := Nat.mod_eq_of_lt (by omega)
  have h4 : (U32 + now % U32 - t % U32) % U32 = now - t := by
    rw [h1, h3]
    have he : U32 + now - t = U32 + (now - t) := by omega
    rw [he, Nat.add_mod_left, Nat.mod_eq_of_lt (by omega)]
  rw [h4, h1, Nat.mod_eq_of_lt hbound, decide_eq_true_eq]
  omega

/-- Witness for C10's amended theorem: window armed at t = 100 for
1000 ms, clock now at 2000 — no overflow, and both sides agree the window
has elapsed. -/
theorem backoffElapsed32_no_overflow_witness :
    backoffElapsed32 100 1000 2000 = true ↔ elapsedSinceArm32 100 2000 > 1000 :=
  backoffElapsed32_no_overflow 100 1000 2000 (by decide) (by decide) (by decide)

end GCIoT
